import Mathlib

/-!
Verification of the PyCTools RNG engine (src/hRng.c) against its
natural-language specification.

The C code is shallowly embedded: bytes are `Nat` values (0..255 in every
reachable state), buffers are `List Nat`, and the cryptographic primitives
supplied by the BCrypt provider are parameters (`hashF` for the plain hash
family, `hmacF` for the keyed HMAC family), mirroring the fact that the C
code treats them as an external library.  Incremental hashing
(`BCryptHashData*` then `BCryptFinishHash`) is modelled as hashing the
concatenation of all fed byte strings.  Entropy sources are modelled by an
environment `env : Nat → EntropySample` giving, per round, the bytes each
source contributes; a source that fails contributes no bytes, which is
observationally the empty contribution.  Provider calls never fail in the
model (their failure paths in the C are environmental, not algorithmic), so
the only failure the embedded functions report is the one the C code decides
itself (argument validation, empty IKM, undersized buffers).
-/

namespace PyCTools

/-- RNG_HASH_ALGO from hRng.c. -/
inductive RNG_HASH_ALGO where
  | sha256
  | sha512
  | sha1
deriving DecidableEq, Repr

/-- RNG_EXP_MODE from hRng.c. -/
inductive RNG_EXP_MODE where
  | counter
  | hkdf
  | hmacStream
  | xof
deriving DecidableEq, Repr

/-- RNG_THREAD_MODE from hRng.c. -/
inductive RNG_THREAD_MODE where
  | noLock
  | critsec
  | userlock
deriving DecidableEq, Repr

/-- RNG_SECURITY_MODE from hRng.c. -/
inductive RNG_SECURITY_MODE where
  | fast
  | balanced
  | secure
deriving DecidableEq, Repr

/-- RNG_OUTPUT_MODE from hRng.c. -/
inductive RNG_OUTPUT_MODE where
  | raw
  | hex
  | base64
deriving DecidableEq, Repr

/-- RNG_MIX_MODE from hRng.c. -/
inductive RNG_MIX_MODE where
  | roundBased
  | continuous
deriving DecidableEq, Repr

/-- RNG_CONFIG from hRng.c.  The C pairs `seed`/`seed_len` and
`info`/`info_len`; a NULL pointer is `none` and a non-NULL pointer with its
length is `some bytes`.  The `user_lock`/`user_unlock` callbacks have no
observable effect on the produced bytes in the sequential semantics and are
represented only through the `threading` discipline tag. -/
structure RNG_CONFIG where
  use_cpu : Bool
  use_rdrand : Bool
  use_memory : Bool
  use_perf : Bool
  use_disk : Bool
  use_audio : Bool
  use_battery : Bool
  use_network : Bool
  hash_algo : RNG_HASH_ALGO
  expansion : RNG_EXP_MODE
  mixing : RNG_MIX_MODE
  threading : RNG_THREAD_MODE
  seed : Option (List Nat)
  sec_mode : RNG_SECURITY_MODE
  complexity : Int
  output_mode : RNG_OUTPUT_MODE
  info : Option (List Nat)
deriving DecidableEq, Repr

/-- algo_digest_len from hRng.c. -/
def algo_digest_len : RNG_HASH_ALGO → Nat
  | .sha512 => 64
  | .sha1 => 20
  | .sha256 => 32

/-- A `uint32_t` laid out in memory on x86 (little-endian), as the C code
hashes counters via `BCryptHashData(h, (PUCHAR)&ctr, sizeof(ctr), 0)`. -/
def le32 (n : Nat) : List Nat :=
  [n &&& 255, (n >>> 8) &&& 255, (n >>> 16) &&& 255, (n >>> 24) &&& 255]

/-- base64_len from hRng.c: `4 * ((n + 2) / 3)`. -/
def base64_len (n : Nat) : Nat := 4 * ((n + 2) / 3)

/-- One character of the base64 alphabet used by base64_encode, as its
ASCII code. -/
def base64_char (i : Nat) : Nat :=
  if i < 26 then 65 + i
  else if i < 52 then 97 + (i - 26)
  else if i < 62 then 48 + (i - 52)
  else if i = 62 then 43 else 47

/-- The character stream base64_encode writes (`=` is ASCII 61). -/
def base64_chars : List Nat → List Nat
  | b0 :: b1 :: b2 :: rest =>
      let v := (b0 <<< 16) ||| (b1 <<< 8) ||| b2
      base64_char ((v >>> 18) &&& 63) :: base64_char ((v >>> 12) &&& 63) ::
      base64_char ((v >>> 6) &&& 63) :: base64_char (v &&& 63) :: base64_chars rest
  | [b0, b1] =>
      let v := (b0 <<< 16) ||| (b1 <<< 8)
      [base64_char ((v >>> 18) &&& 63), base64_char ((v >>> 12) &&& 63),
       base64_char ((v >>> 6) &&& 63), 61]
  | [b0] =>
      let v := b0 <<< 16
      [base64_char ((v >>> 18) &&& 63), base64_char ((v >>> 12) &&& 63), 61, 61]
  | [] => []

/-- base64_encode from hRng.c: fails (writes nothing) when the output buffer
is shorter than `base64_len in_len`, else produces the encoded characters. -/
def base64_encode (inp : List Nat) (out_len : Nat) : Option (List Nat) :=
  if out_len < base64_len inp.length then none else some (base64_chars inp)

/-- One lowercase hex digit character (ASCII code), as hex_encode writes. -/
def hex_digit (n : Nat) : Nat := if n < 10 then 48 + n else 87 + n

/-- hex_encode from hRng.c: two lowercase hex characters per input byte. -/
def hex_encode : List Nat → List Nat
  | [] => []
  | b :: bs => hex_digit ((b >>> 4) &&& 15) :: hex_digit (b &&& 15) :: hex_encode bs

/-- The bytes each entropy source contributes in one round.  A source that
is unavailable or fails (e.g. RDRAND unsupported, `GetSystemPowerStatus`
returning 0) performs no `BCryptHashData` call, which this model expresses
as the empty list. -/
structure EntropySample where
  rdrand : List Nat
  cpu : List Nat
  memory : List Nat
  perf : List Nat
  disk : List Nat
  audio : List Nat
  battery : List Nat
  network : List Nat
deriving DecidableEq, Repr

/-- hash_update_entropy_from_sources from hRng.c: the bytes fed into the
hash context in one round, in the source order of the C code (rdrand first,
then cpu, memory, perf, disk, audio, battery, network), each gated by its
config toggle. -/
def hash_update_entropy_from_sources (cfg : RNG_CONFIG) (s : EntropySample) : List Nat :=
  (if cfg.use_rdrand then s.rdrand else []) ++
  (if cfg.use_cpu then s.cpu else []) ++
  (if cfg.use_memory then s.memory else []) ++
  (if cfg.use_perf then s.perf else []) ++
  (if cfg.use_disk then s.disk else []) ++
  (if cfg.use_audio then s.audio else []) ++
  (if cfg.use_battery then s.battery else []) ++
  (if cfg.use_network then s.network else [])

/-- Round-based mixing of collect_entropy_configurable: digest of round 0 is
the hash of that round's source bytes; each later round hashes the previous
digest followed by its own source bytes (the C feeds the prior digest into
the freshly created context before the round's sources). -/
def round_chain_digest (hashF : RNG_HASH_ALGO → List Nat → List Nat)
    (algo : RNG_HASH_ALGO) (env : Nat → EntropySample) (cfg : RNG_CONFIG) :
    Nat → List Nat
  | 0 => hashF algo (hash_update_entropy_from_sources cfg (env 0))
  | n + 1 =>
      hashF algo (round_chain_digest hashF algo env cfg n ++
        hash_update_entropy_from_sources cfg (env (n + 1)))

/-- Continuous mixing's accumulated data: all rounds' source bytes fed into
a single context, round 0 first. -/
def continuous_data (env : Nat → EntropySample) (cfg : RNG_CONFIG) : Nat → List Nat
  | 0 => []
  | n + 1 => continuous_data env cfg n ++ hash_update_entropy_from_sources cfg (env n)

/-- The root digest collect_entropy_configurable holds after its mixing
loop, for `rounds ≥ 1` (every caller clamps rounds to at least 1; the C
round-based loop body runs `rounds` times, so `rounds - 1` chaining steps). -/
def root_digest (hashF : RNG_HASH_ALGO → List Nat → List Nat)
    (algo : RNG_HASH_ALGO) (mixing : RNG_MIX_MODE) (env : Nat → EntropySample)
    (cfg : RNG_CONFIG) (rounds : Nat) : List Nat :=
  match mixing with
  | .continuous => hashF algo (continuous_data env cfg rounds)
  | .roundBased => round_chain_digest hashF algo env cfg (rounds - 1)

/-- The counter-chained stretch at the end of collect_entropy_configurable:
each extra block rehashes the running digest followed by a 4-byte
little-endian counter starting at 1, and the digest variable is replaced by
each block. -/
def stretch_blocks (hashF : RNG_HASH_ALGO → List Nat → List Nat)
    (algo : RNG_HASH_ALGO) (d : List Nat) (ctr : Nat) : Nat → List Nat
  | 0 => []
  | n + 1 =>
      let d2 := hashF algo (d ++ le32 ctr)
      d2 ++ stretch_blocks hashF algo d2 (ctr + 1) n

/-- collect_entropy_configurable from hRng.c: mix entropy into a root digest
with the selected discipline, then counter-stretch to `size` bytes.  The
number of extra blocks is what the C while-loop performs when every digest
has the algorithm's nominal width `H`. -/
def collect_entropy_configurable (hashF : RNG_HASH_ALGO → List Nat → List Nat)
    (env : Nat → EntropySample) (size rounds : Nat) (algo : RNG_HASH_ALGO)
    (mixing : RNG_MIX_MODE) (cfg : RNG_CONFIG) : List Nat :=
  let H := algo_digest_len algo
  let d := root_digest hashF algo mixing env cfg rounds
  let rem := size - min size H
  List.take size (d ++ stretch_blocks hashF algo d 1 ((rem + H - 1) / H))

/-- hkdf_extract from hRng.c: `PRK = HMAC(salt, IKM)` where a NULL salt is
replaced by a block of zeros of the hash's digest length. -/
def hkdf_extract (hmacF : RNG_HASH_ALGO → List Nat → List Nat → List Nat)
    (algo : RNG_HASH_ALGO) (salt : Option (List Nat)) (ikm : List Nat) : List Nat :=
  match salt with
  | none => hmacF algo (List.replicate (algo_digest_len algo) 0) ikm
  | some s => hmacF algo s ikm

/-- The block stream of hkdf_expand: `T_i = HMAC(PRK, T_{i-1} ++ info ++
[ctr_i])`, with `T_0` empty and the counter a single byte starting at 1
(an `unsigned char` in the C, hence the mod 256). -/
def hkdf_blocks (hmacF : RNG_HASH_ALGO → List Nat → List Nat → List Nat)
    (algo : RNG_HASH_ALGO) (prk info prev : List Nat) (ctr : Nat) : Nat → List Nat
  | 0 => []
  | n + 1 =>
      let T := hmacF algo prk (prev ++ info ++ [ctr % 256])
      T ++ hkdf_blocks hmacF algo prk info T (ctr + 1) n

/-- hkdf_expand from hRng.c: concatenate HKDF blocks and truncate to the
requested length.  A NULL or empty info contributes no bytes. -/
def hkdf_expand (hmacF : RNG_HASH_ALGO → List Nat → List Nat → List Nat)
    (algo : RNG_HASH_ALGO) (prk : List Nat) (info : Option (List Nat))
    (out_len : Nat) : List Nat :=
  let H := algo_digest_len algo
  List.take out_len (hkdf_blocks hmacF algo prk (info.getD []) [] 1 ((out_len + H - 1) / H))

/-- The block stream of hmac_stream_expand: `B_i = HMAC(key, B_{i-1} ++
[ctr_i])`, `B_0` empty, single-byte counter from 1. -/
def hmac_stream_blocks (hmacF : RNG_HASH_ALGO → List Nat → List Nat → List Nat)
    (algo : RNG_HASH_ALGO) (key prev : List Nat) (ctr : Nat) : Nat → List Nat
  | 0 => []
  | n + 1 =>
      let B := hmacF algo key (prev ++ [ctr % 256])
      B ++ hmac_stream_blocks hmacF algo key B (ctr + 1) n

/-- hmac_stream_expand from hRng.c. -/
def hmac_stream_expand (hmacF : RNG_HASH_ALGO → List Nat → List Nat → List Nat)
    (algo : RNG_HASH_ALGO) (key : List Nat) (out_len : Nat) : List Nat :=
  let H := algo_digest_len algo
  List.take out_len (hmac_stream_blocks hmacF algo key [] 1 ((out_len + H - 1) / H))

/-- The block stream of expand_output's counter branch: `block_i =
Hash(IKM ++ seed? ++ ctr_i)` with a 4-byte little-endian `uint32_t` counter
from 1; the seed is folded in only when present with positive length. -/
def counter_blocks (hashF : RNG_HASH_ALGO → List Nat → List Nat)
    (algo : RNG_HASH_ALGO) (pre : List Nat) (ctr : Nat) : Nat → List Nat
  | 0 => []
  | n + 1 => hashF algo (pre ++ le32 ctr) ++ counter_blocks hashF algo pre (ctr + 1) n

/-- expand_output from hRng.c: dispatch on the expansion strategy.  Fails
(`none`, the C returns 0) when the IKM is empty; otherwise produces exactly
what the C writes into `out_raw`.  The XOF branch is, as in the C, textually
the same HKDF-Extract-then-Expand as the HKDF branch. -/
def expand_output (hashF : RNG_HASH_ALGO → List Nat → List Nat)
    (hmacF : RNG_HASH_ALGO → List Nat → List Nat → List Nat)
    (cfg : RNG_CONFIG) (ikm : List Nat) (out_len : Nat) : Option (List Nat) :=
  if ikm.length = 0 then none else
  let algo := cfg.hash_algo
  let H := algo_digest_len algo
  match cfg.expansion with
  | .counter =>
      let pre := ikm ++ (match cfg.seed with
        | some s => if 0 < s.length then s else []
        | none => [])
      some (List.take out_len (counter_blocks hashF algo pre 1 ((out_len + H - 1) / H)))
  | .hkdf =>
      let prk := hkdf_extract hmacF algo cfg.seed ikm
      some (hkdf_expand hmacF algo prk cfg.info out_len)
  | .hmacStream =>
      let key := match cfg.seed with
        | some s => s
        | none => ikm
      some (hmac_stream_expand hmacF algo key out_len)
  | .xof =>
      let prk := hkdf_extract hmacF algo cfg.seed ikm
      some (hkdf_expand hmacF algo prk cfg.info out_len)

/-- apply_security_preset from hRng.c. -/
def apply_security_preset (cfg : RNG_CONFIG) : RNG_CONFIG :=
  match cfg.sec_mode with
  | .fast =>
      { cfg with
        use_audio := false, use_network := false, use_disk := false,
        hash_algo := .sha256,
        complexity := if cfg.complexity < 1 then 1 else cfg.complexity,
        mixing := .continuous }
  | .secure =>
      { cfg with
        use_audio := true, use_network := true, use_disk := true,
        hash_algo := .sha512,
        complexity := if cfg.complexity < 3 then 3 else cfg.complexity,
        mixing := .roundBased }
  | .balanced =>
      { cfg with
        use_audio := true, use_network := true, use_disk := true,
        hash_algo :=
          if cfg.hash_algo = .sha256 ∨ cfg.hash_algo = .sha1 then cfg.hash_algo
          else .sha256,
        complexity := if cfg.complexity < 2 then 2 else cfg.complexity,
        mixing := .continuous }

/-- The complexity floor each preset enforces (1, 2, 3). -/
def preset_floor : RNG_SECURITY_MODE → Int
  | .fast => 1
  | .balanced => 2
  | .secure => 3

/-- The seed fold of maxrng_dev for the counter/XOF strategies:
`ikm[i] ^= seed[i]` for `i < min(seed_len, ikm_len)`; remaining IKM bytes
are untouched. -/
def xor_fold (ikm s : List Nat) : List Nat :=
  List.zipWith (fun a b => a ^^^ b) ikm s ++ List.drop (min s.length ikm.length) ikm

/-- The output-buffer requirement maxrng_dev computes for each output mode. -/
def needed_len (mode : RNG_OUTPUT_MODE) (raw_len : Nat) : Nat :=
  match mode with
  | .raw => raw_len
  | .hex => 2 * raw_len
  | .base64 => base64_len raw_len

/-- Whether every one of the eight source toggles is cleared — the condition
under which maxrng_dev substitutes its defaults. -/
def all_sources_off (cfg : RNG_CONFIG) : Bool :=
  !(cfg.use_cpu || cfg.use_memory || cfg.use_perf || cfg.use_disk ||
    cfg.use_audio || cfg.use_battery || cfg.use_network || cfg.use_rdrand)

/-- The default toggle substitution of maxrng_dev: all eight sources on. -/
def enable_all_sources (cfg : RNG_CONFIG) : RNG_CONFIG :=
  { cfg with
    use_cpu := true, use_memory := true, use_perf := true, use_disk := true,
    use_audio := true, use_battery := true, use_network := true,
    use_rdrand := true }

/-- Writing `w` at the start of a caller buffer: the bytes the C writes
followed by the untouched tail of the buffer. -/
def write_out (out_buf w : List Nat) : List Nat :=
  w ++ List.drop w.length out_buf

/-- The configuration maxrng_dev actually runs with: default toggles when
the caller cleared all eight, then the security preset, then the complexity
clamp to [1,10]. -/
def resolve_config (cfg_in : RNG_CONFIG) : RNG_CONFIG :=
  let cfg1 := if all_sources_off cfg_in then enable_all_sources cfg_in else cfg_in
  let cfg2 := apply_security_preset cfg1
  { cfg2 with
    complexity :=
      if cfg2.complexity < 1 then 1
      else if cfg2.complexity > 10 then 10
      else cfg2.complexity }

/-- The seed-injection step of maxrng_dev: for the counter and XOF
strategies a present, non-empty seed is XOR-folded into the IKM; every
other case leaves the IKM untouched. -/
def fold_seed_for_counter_xof (cfg : RNG_CONFIG) (ikm0 : List Nat) : List Nat :=
  if cfg.expansion = .counter ∨ cfg.expansion = .xof then
    match cfg.seed with
    | some s => if 0 < s.length then xor_fold ikm0 s else ikm0
    | none => ikm0
  else ikm0

/-- maxrng_dev from hRng.c.  The caller's buffer is `out_buf` (its length is
`out_buf_len`); the result is the C return value paired with the buffer
contents after the call.  The `ensure_threading_enter`/`leave` bracket has
no effect on the produced bytes in the sequential semantics and is elided;
`malloc` failure is environmental and not modelled. -/
def maxrng_dev (hashF : RNG_HASH_ALGO → List Nat → List Nat)
    (hmacF : RNG_HASH_ALGO → List Nat → List Nat → List Nat)
    (env : Nat → EntropySample) (out_buf : List Nat) (raw_len : Nat)
    (cfg_in : RNG_CONFIG) : Nat × List Nat :=
  if out_buf.length = 0 ∨ raw_len = 0 then (0, out_buf) else
  let cfg3 := resolve_config cfg_in
  let needed := needed_len cfg3.output_mode raw_len
  if out_buf.length < needed then (0, out_buf) else
  let H := algo_digest_len cfg3.hash_algo
  let ikm_len := if raw_len < H then H else if raw_len > 2 * H then 2 * H else raw_len
  let ikm0 := collect_entropy_configurable hashF env ikm_len cfg3.complexity.toNat
    cfg3.hash_algo cfg3.mixing cfg3
  let ikm := fold_seed_for_counter_xof cfg3 ikm0
  match expand_output hashF hmacF cfg3 ikm raw_len with
  | none => (0, out_buf)
  | some raw =>
      match cfg3.output_mode with
      | .raw => (needed, write_out out_buf raw)
      | .hex => (needed, write_out out_buf (hex_encode raw))
      | .base64 =>
          match base64_encode raw out_buf.length with
          | some w => (needed, write_out out_buf w)
          | none => (0, out_buf)

/-- maxrng_dev_default_config from hRng.c: zero the config, enable every
source, set the listed defaults and apply the preset. -/
def maxrng_dev_default_config (mode : RNG_SECURITY_MODE) : RNG_CONFIG :=
  apply_security_preset
    { use_cpu := true, use_rdrand := true, use_memory := true, use_perf := true,
      use_disk := true, use_audio := true, use_battery := true, use_network := true,
      hash_algo := .sha256, expansion := .counter, mixing := .continuous,
      threading := .noLock, seed := none, sec_mode := mode, complexity := 2,
      output_mode := .raw, info := none }

/-- The config maxrng_ultra builds (its toggles are what
collect_entropy_configurable reads). -/
def ultra_config (complexity : Int) : RNG_CONFIG :=
  { use_cpu := true, use_rdrand := true, use_memory := true, use_perf := true,
    use_disk := true, use_audio := true, use_battery := true, use_network := true,
    hash_algo := .sha512, expansion := .counter, mixing := .roundBased,
    threading := .noLock, seed := none, sec_mode := .secure,
    complexity := complexity, output_mode := .raw, info := none }

/-- maxrng_ultra from hRng.c: clamp complexity to [1,10], then collect with
SHA-512, round-based mixing, all sources.  `none` models the C's 0 return
for a NULL buffer or non-positive size. -/
def maxrng_ultra (hashF : RNG_HASH_ALGO → List Nat → List Nat)
    (env : Nat → EntropySample) (size : Nat) (complexity : Int) :
    Option (List Nat) :=
  if size = 0 then none else
  let c := if complexity < 1 then 1 else if complexity > 10 then 10 else complexity
  some (collect_entropy_configurable hashF env size c.toNat .sha512 .roundBased
    (ultra_config c))

/-- The process-wide threading state of hRng.c: the atomic
`g_threadingInitialized` flag and the number of `InitializeCriticalSection`
invocations performed so far. -/
structure ThreadState where
  g_threadingInitialized : Bool
  initCalls : Nat
deriving DecidableEq, Repr

/-- The state at process start: flag clear, no initialization performed. -/
def threadState0 : ThreadState := { g_threadingInitialized := false, initCalls := 0 }

/-- maxrng_init from hRng.c: `InterlockedCompareExchange` flips the flag
exactly when it was clear, and only then is `InitializeCriticalSection`
run. -/
def maxrng_init_step (s : ThreadState) : ThreadState :=
  if s.g_threadingInitialized then s
  else { g_threadingInitialized := true, initCalls := s.initCalls + 1 }

/-- The public entry points, as events of a call trace. -/
inductive ApiEvent where
  | callInit
  | callThreadsafe
  | callMaxrng
  | callUltra
  | callDev
  | callTestThreading
deriving DecidableEq, Repr

/-- The effect of one public call on the process-wide threading state.
Only maxrng_init touches it: maxrng_threadsafe enters `g_rngLock` directly
without checking or setting the flag, and no other entry point references
the lock state. -/
def api_step (s : ThreadState) : ApiEvent → ThreadState
  | .callInit => maxrng_init_step s
  | _ => s

/-- Run a call trace from a state. -/
def run_api (s : ThreadState) : List ApiEvent → ThreadState
  | [] => s
  | e :: es => run_api (api_step s e) es

/-- Whether, along a trace, every maxrng_threadsafe call finds the critical
section already initialized at the moment it acquires it. -/
def threadsafe_sees_initialized (s : ThreadState) : List ApiEvent → Bool
  | [] => true
  | .callThreadsafe :: es =>
      s.g_threadingInitialized && threadsafe_sees_initialized s es
  | e :: es => threadsafe_sees_initialized (api_step s e) es

/-! A concrete SHA-256 and HMAC-SHA-256, used to instantiate the abstract
provider for the RFC 5869 test-vector check.  Words are `Nat`s kept below
2^32 by explicit masking. -/

/-- Truncate to a 32-bit word. -/
def w32 (n : Nat) : Nat := n % 4294967296

/-- 32-bit rotate right (argument assumed below 2^32). -/
def rotr32 (x n : Nat) : Nat := w32 ((x >>> n) ||| (x <<< (32 - n)))

/-- SHA-256 Σ0. -/
def bigSigma0 (x : Nat) : Nat := rotr32 x 2 ^^^ rotr32 x 13 ^^^ rotr32 x 22

/-- SHA-256 Σ1. -/
def bigSigma1 (x : Nat) : Nat := rotr32 x 6 ^^^ rotr32 x 11 ^^^ rotr32 x 25

/-- SHA-256 σ0. -/
def smallSigma0 (x : Nat) : Nat := rotr32 x 7 ^^^ rotr32 x 18 ^^^ (x >>> 3)

/-- SHA-256 σ1. -/
def smallSigma1 (x : Nat) : Nat := rotr32 x 17 ^^^ rotr32 x 19 ^^^ (x >>> 10)

/-- SHA-256 Ch. -/
def chF (x y z : Nat) : Nat := (x &&& y) ^^^ ((x ^^^ 4294967295) &&& z)

/-- SHA-256 Maj. -/
def majF (x y z : Nat) : Nat := (x &&& y) ^^^ (x &&& z) ^^^ (y &&& z)

/-- The 64 SHA-256 round constants (FIPS 180-4, written in decimal). -/
def sha256K : List Nat :=
  [1116352408, 1899447441, 3049323471, 3921009573, 961987163,
   1508970993, 2453635748, 2870763221, 3624381080, 310598401,
   607225278, 1426881987, 1925078388, 2162078206, 2614888103,
   3248222580, 3835390401, 4022224774, 264347078, 604807628,
   770255983, 1249150122, 1555081692, 1996064986, 2554220882,
   2821834349, 2952996808, 3210313671, 3336571891, 3584528711,
   113926993, 338241895, 666307205, 773529912, 1294757372,
   1396182291, 1695183700, 1986661051, 2177026350, 2456956037,
   2730485921, 2820302411, 3259730800, 3345764771, 3516065817,
   3600352804, 4094571909, 275423344, 430227734, 506948616,
   659060556, 883997877, 958139571, 1322822218, 1537002063,
   1747873779, 1955562222, 2024104815, 2227730452, 2361852424,
   2428436474, 2756734187, 3204031479, 3329325298]

/-- The SHA-256 initial hash value (FIPS 180-4, written in decimal). -/
def sha256H0 : List Nat :=
  [1779033703, 3144134277, 1013904242, 2773480762,
   1359893119, 2600822924, 528734635, 1541459225]

/-- Extend a 16-word message block by `n` schedule words. -/
def sched_ext (ws : List Nat) : Nat → List Nat
  | 0 => ws
  | n + 1 =>
      let prev := sched_ext ws n
      let i := prev.length
      prev ++ [w32 (smallSigma1 (prev.getD (i - 2) 0) + prev.getD (i - 7) 0 +
        smallSigma0 (prev.getD (i - 15) 0) + prev.getD (i - 16) 0)]

/-- One SHA-256 compression round on the 8-word working state. -/
def compress_step (st : List Nat) (kw : Nat × Nat) : List Nat :=
  match st with
  | [a, b, c, d, e, f, g, h] =>
      let t1 := w32 (h + bigSigma1 e + chF e f g + kw.1 + kw.2)
      let t2 := w32 (bigSigma0 a + majF a b c)
      [w32 (t1 + t2), a, b, c, w32 (d + t1), e, f, g]
  | other => other

/-- Four big-endian bytes to a word. -/
def be32_of (a b c d : Nat) : Nat := (a <<< 24) ||| (b <<< 16) ||| (c <<< 8) ||| d

/-- A byte string to big-endian 32-bit words (length a multiple of 4). -/
def words_of : List Nat → List Nat
  | a :: b :: c :: d :: rest => be32_of a b c d :: words_of rest
  | _ => []

/-- A word to four big-endian bytes. -/
def be32_bytes (w : Nat) : List Nat :=
  [(w >>> 24) &&& 255, (w >>> 16) &&& 255, (w >>> 8) &&& 255, w &&& 255]

/-- A 64-bit big-endian length field. -/
def be64_bytes (n : Nat) : List Nat :=
  [(n >>> 56) &&& 255, (n >>> 48) &&& 255, (n >>> 40) &&& 255, (n >>> 32) &&& 255,
   (n >>> 24) &&& 255, (n >>> 16) &&& 255, (n >>> 8) &&& 255, n &&& 255]

/-- SHA-256 padding: 0x80, zeros to 56 mod 64, then the bit length. -/
def sha256_pad (m : List Nat) : List Nat :=
  m ++ 128 :: List.replicate ((119 - m.length % 64) % 64) 0 ++ be64_bytes (8 * m.length)

/-- Compress one 64-byte block into the running hash value. -/
def compress_block (hs block : List Nat) : List Nat :=
  let ws := sched_ext (words_of block) 48
  let st := (List.zip sha256K ws).foldl compress_step hs
  List.zipWith (fun x y => w32 (x + y)) hs st

/-- Split into 64-byte chunks (fuel-driven structural recursion). -/
def chunks64 : Nat → List Nat → List (List Nat)
  | 0, _ => []
  | _, [] => []
  | fuel + 1, l => List.take 64 l :: chunks64 fuel (List.drop 64 l)

/-- SHA-256 of a byte string. -/
def sha256 (m : List Nat) : List Nat :=
  let p := sha256_pad m
  ((chunks64 p.length p).foldl compress_block sha256H0).foldr
    (fun w acc => be32_bytes w ++ acc) []

/-- HMAC-SHA-256 (block size 64). -/
def hmac_sha256 (key msg : List Nat) : List Nat :=
  let k0 := if 64 < key.length then sha256 key else key
  let kp := k0 ++ List.replicate (64 - k0.length) 0
  sha256 (kp.map (fun b => b ^^^ 0x5c) ++ sha256 (kp.map (fun b => b ^^^ 0x36) ++ msg))

/-- The concrete HMAC provider instance: genuine HMAC-SHA-256 on the SHA-256
slot (the only one any theorem evaluates). -/
def real_hmacF : RNG_HASH_ALGO → List Nat → List Nat → List Nat
  | .sha256, k, m => hmac_sha256 k m
  | .sha512, _, _ => List.replicate 64 0
  | .sha1, _, _ => List.replicate 20 0

/-- The concrete hash provider instance: genuine SHA-256 on the SHA-256
slot (the only one any theorem evaluates). -/
def real_hashF : RNG_HASH_ALGO → List Nat → List Nat
  | .sha256, m => sha256 m
  | .sha512, _ => List.replicate 64 0
  | .sha1, _ => List.replicate 20 0

/-! Concrete provider instances and inputs used by witnesses and
counterexamples.  The toy provider is a legitimate instantiation of the
abstract primitive interface: digests have the nominal width and depend on
the whole input. -/

/-- A small concrete hash provider: digest of the nominal width whose byte
value depends on the message. -/
def toy_hashF : RNG_HASH_ALGO → List Nat → List Nat := fun a m =>
  List.replicate (algo_digest_len a) ((m.foldl (fun x y => x + y) 0 + m.length) % 256)

/-- A small concrete HMAC provider: digest of the nominal width whose byte
value depends on key and message. -/
def toy_hmacF : RNG_HASH_ALGO → List Nat → List Nat → List Nat := fun a k m =>
  List.replicate (algo_digest_len a)
    ((3 * k.foldl (fun x y => x + y) 0 + 5 * m.foldl (fun x y => x + y) 0 +
      7 * m.length + k.length) % 256)

/-- A fixed deterministic entropy environment. -/
def env0 : Nat → EntropySample :=
  fun _ => ⟨[1, 2], [3], [4], [5], [6], [7], [8], [9]⟩

/-- A baseline configuration with every source enabled. -/
def cfg_base : RNG_CONFIG :=
  { use_cpu := true, use_rdrand := true, use_memory := true, use_perf := true,
    use_disk := true, use_audio := true, use_battery := true, use_network := true,
    hash_algo := .sha256, expansion := .counter, mixing := .continuous,
    threading := .noLock, seed := none, sec_mode := .balanced, complexity := 1,
    output_mode := .raw, info := none }

/-- RFC 5869 test case 1: IKM. -/
def tc1_ikm : List Nat := List.replicate 22 0x0b

/-- RFC 5869 test case 1: salt. -/
def tc1_salt : List Nat := [0, 1, 2, 3, 4, 5, 6, 7, 8, 9, 10, 11, 12]

/-- RFC 5869 test case 1: info. -/
def tc1_info : List Nat := [0xf0, 0xf1, 0xf2, 0xf3, 0xf4, 0xf5, 0xf6, 0xf7, 0xf8, 0xf9]

/-- RFC 5869 test case 1: the published PRK. -/
def tc1_prk : List Nat :=
  [0x07, 0x77, 0x09, 0x36, 0x2c, 0x2e, 0x32, 0xdf, 0x0d, 0xdc, 0x3f, 0x0d, 0xc4,
   0x7b, 0xba, 0x63, 0x90, 0xb6, 0xc7, 0x3b, 0xb5, 0x0f, 0x9c, 0x31, 0x22, 0xec,
   0x84, 0x4a, 0xd7, 0xc2, 0xb3, 0xe5]

/-- RFC 5869 test case 1: the published OKM (42 bytes). -/
def tc1_okm : List Nat :=
  [0x3c, 0xb2, 0x5f, 0x25, 0xfa, 0xac, 0xd5, 0x7a, 0x90, 0x43, 0x4f, 0x64, 0xd0,
   0x36, 0x2f, 0x2a, 0x2d, 0x2d, 0x0a, 0x90, 0xcf, 0x1a, 0x5a, 0x4c, 0x5d, 0xb0,
   0x2d, 0x56, 0xec, 0xc4, 0xc5, 0xbf, 0x34, 0x00, 0x72, 0x08, 0xd5, 0xb8, 0x87,
   0x18, 0x58, 0x65]

/-- A configuration with every source toggle cleared. -/
def cfg_all_off : RNG_CONFIG :=
  { cfg_base with
    use_cpu := false, use_rdrand := false, use_memory := false, use_perf := false,
    use_disk := false, use_audio := false, use_battery := false,
    use_network := false }

/-! ## Theorems -/

set_option maxRecDepth 1000000

/-- Claim C1, counterexample: the fast preset replaces a caller-selected
64-byte SHA-512 by the narrower SHA-256, so a preset does lower a caller's
explicitly stronger hash choice. -/
theorem C1_fast_narrows_sha512 :
    ({ cfg_base with sec_mode := .fast, hash_algo := .sha512 } : RNG_CONFIG).hash_algo
        = RNG_HASH_ALGO.sha512 ∧
    (apply_security_preset
        { cfg_base with sec_mode := .fast, hash_algo := .sha512 }).hash_algo
        = RNG_HASH_ALGO.sha256 ∧
    algo_digest_len
        (apply_security_preset
          { cfg_base with sec_mode := .fast, hash_algo := .sha512 }).hash_algo <
      algo_digest_len RNG_HASH_ALGO.sha512 := by
  decide

/-- Claim C1, amended: every preset only raises complexity below its floor
(1 for fast, 2 for balanced, 3 for secure) and keeps a complexity at or
above the floor unchanged; the hash algorithm, however, is not protected —
the secure preset forces the widest hash, while fast and balanced can
replace SHA-512 by SHA-256. -/
theorem C1_preset_complexity_floor (cfg : RNG_CONFIG) :
    (apply_security_preset cfg).complexity =
      (if cfg.complexity < preset_floor cfg.sec_mode then preset_floor cfg.sec_mode
       else cfg.complexity) ∧
    (apply_security_preset { cfg with sec_mode := .secure }).hash_algo
      = RNG_HASH_ALGO.sha512 := by
  obtain ⟨u1, u2, u3, u4, u5, u6, u7, u8, ha, ex, mx, th, sd, sm, cx, om, inf⟩ := cfg
  cases sm <;> simp [apply_security_preset, preset_floor]

/-- Claim C2, amended: at the level of expand_output the XOF-fallback
strategy is byte-identical to HKDF for every provider, configuration, seed,
info, IKM and length; but entered through maxrng_dev with a caller seed the
two differ, because maxrng_dev XOR-folds the seed into the IKM for the
counter and XOF strategies only. -/
theorem C2_xof_equals_hkdf (hashF : RNG_HASH_ALGO → List Nat → List Nat)
    (hmacF : RNG_HASH_ALGO → List Nat → List Nat → List Nat)
    (cfg : RNG_CONFIG) (ikm : List Nat) (out_len : Nat) :
    expand_output hashF hmacF { cfg with expansion := .xof } ikm out_len =
      expand_output hashF hmacF { cfg with expansion := .hkdf } ikm out_len := rfl

/-- Claim C2, counterexample: with a caller-supplied seed, maxrng_dev under
the XOF strategy produces different bytes from maxrng_dev under HKDF, on
the genuine SHA-256 / HMAC-SHA-256 provider with a fixed deterministic
environment (the XOF run XOR-folds the seed into the IKM first, the HKDF
run does not). -/
theorem C2_dev_seed_xof_ne_hkdf :
    maxrng_dev real_hashF real_hmacF env0 (List.replicate 4 0) 4
        { cfg_base with seed := some [1], expansion := .xof } ≠
      maxrng_dev real_hashF real_hmacF env0 (List.replicate 4 0) 4
        { cfg_base with seed := some [1], expansion := .hkdf } := by
  decide

/-- Claim C3: under the HMAC-stream strategy with a non-null seed, the seed
becomes the HMAC key and the IKM is never consulted — two arbitrary
non-empty root digests yield identical output streams for the same
provider, seed, hash algorithm and length. -/
theorem C3_hmac_stream_ignores_ikm (hashF : RNG_HASH_ALGO → List Nat → List Nat)
    (hmacF : RNG_HASH_ALGO → List Nat → List Nat → List Nat)
    (cfg : RNG_CONFIG) (s : List Nat) (a : Nat) (t : List Nat) (b : Nat)
    (u : List Nat) (out_len : Nat) :
    expand_output hashF hmacF { cfg with expansion := .hmacStream, seed := some s }
        (a :: t) out_len =
      expand_output hashF hmacF { cfg with expansion := .hmacStream, seed := some s }
        (b :: u) out_len := rfl

/-- Claim C8: with deterministic sources, round-chained and continuous
mixing coincide at one round — collect_entropy_configurable yields the same
bytes for both mixing modes when rounds is 1, for every provider,
environment, hash algorithm, configuration and size. -/
theorem C8_mixing_modes_coincide_at_one_round
    (hashF : RNG_HASH_ALGO → List Nat → List Nat) (env : Nat → EntropySample)
    (algo : RNG_HASH_ALGO) (cfg : RNG_CONFIG) (size : Nat) :
    collect_entropy_configurable hashF env size 1 algo .roundBased cfg =
      collect_entropy_configurable hashF env size 1 algo .continuous cfg := rfl

/-- Claim C9: applying a security preset twice yields the same configuration
as applying it once, for every configuration and preset. -/
theorem C9_preset_idempotent (cfg : RNG_CONFIG) :
    apply_security_preset (apply_security_preset cfg) = apply_security_preset cfg := by
  obtain ⟨u1, u2, u3, u4, u5, u6, u7, u8, ha, ex, mx, th, sd, sm, cx, om, inf⟩ := cfg
  cases sm <;> simp [apply_security_preset]
  · intro h; split_ifs at h ⊢ <;> omega
  · constructor
    · cases ha <;> simp
    · intro h; split_ifs at h ⊢ <;> omega
  · intro h; split_ifs at h ⊢ <;> omega

/-- Claim C10: maxrng_ultra clamps complexity to [1,10] — complexity 0
behaves identically to 1 and complexity 15 identically to 10, for every
provider, environment and size. -/
theorem C10_ultra_clamps (hashF : RNG_HASH_ALGO → List Nat → List Nat)
    (env : Nat → EntropySample) (size : Nat) :
    maxrng_ultra hashF env size 0 = maxrng_ultra hashF env size 1 ∧
      maxrng_ultra hashF env size 15 = maxrng_ultra hashF env size 10 :=
  ⟨rfl, rfl⟩

/-- The quantity conserved by every public call: initialization count plus
one pending initialization while the flag is clear. -/
def lock_potential (s : ThreadState) : Nat :=
  s.initCalls + (if s.g_threadingInitialized then 0 else 1)

/-- One public call preserves the lock potential. -/
theorem api_step_lock_potential (s : ThreadState) (e : ApiEvent) :
    lock_potential (api_step s e) = lock_potential s := by
  cases e <;> try rfl
  unfold api_step maxrng_init_step lock_potential
  split_ifs <;> simp_all

/-- A whole call trace preserves the lock potential. -/
theorem run_api_lock_potential (evs : List ApiEvent) (s : ThreadState) :
    lock_potential (run_api s evs) = lock_potential s := by
  induction evs generalizing s with
  | nil => rfl
  | cons e es ih => rw [run_api, ih, api_step_lock_potential]

/-- Claim C4: what does hold — across every call sequence,
InitializeCriticalSection runs at most once (maxrng_init is idempotent) —
and the failing input: the one-call sequence consisting of
maxrng_threadsafe alone acquires the critical section while the initialized
flag is still clear, because maxrng_threadsafe never performs the lazy
initialization the specification describes. -/
theorem C4_threadsafe_acquires_uninitialized :
    (∀ evs : List ApiEvent, (run_api threadState0 evs).initCalls ≤ 1) ∧
      threadsafe_sees_initialized threadState0 [ApiEvent.callThreadsafe] = false := by
  refine ⟨fun evs => ?_, rfl⟩
  have h := run_api_lock_potential evs threadState0
  rw [show lock_potential threadState0 = 1 from rfl] at h
  unfold lock_potential at h
  split_ifs at h <;> omega

/-- Claim C5, counterexample: maxrng_dev with a configuration whose eight
source toggles are all cleared does not fail — on a concrete provider and
environment it returns the requested byte count, not 0. -/
theorem C5_all_off_succeeds :
    all_sources_off cfg_all_off = true ∧
      (maxrng_dev toy_hashF toy_hmacF env0 (List.replicate 16 0) 16 cfg_all_off).1
        = 16 := by
  constructor
  · decide
  · decide

/-- Claim C5, amended: maxrng_dev treats an all-cleared toggle set as
"caller forgot the toggles" and silently substitutes the default of all
eight sources enabled, then proceeds normally — it is behaviourally
identical to calling it with every source enabled, and never surfaces the
zero-source configuration as a failure. -/
theorem C5_all_off_reenables_defaults (hashF : RNG_HASH_ALGO → List Nat → List Nat)
    (hmacF : RNG_HASH_ALGO → List Nat → List Nat → List Nat)
    (env : Nat → EntropySample) (out_buf : List Nat) (raw_len : Nat)
    (cfg : RNG_CONFIG) :
    maxrng_dev hashF hmacF env out_buf raw_len
        { cfg with
          use_cpu := false, use_rdrand := false, use_memory := false,
          use_perf := false, use_disk := false, use_audio := false,
          use_battery := false, use_network := false } =
      maxrng_dev hashF hmacF env out_buf raw_len (enable_all_sources cfg) := rfl



/-- Claim C6: the HKDF strategy is RFC 5869 extract-then-expand — an absent
seed makes the salt a zero block of the digest length, and on the RFC 5869
test-vector inputs for SHA-256 the embedded hkdf_extract/hkdf_expand
reproduce the published PRK and output keying material byte for byte
(L = 42 exercises the single-byte counters from 1 and the truncation of the
last block). -/
theorem C6_hkdf_rfc5869 :
    (∀ (hmacF : RNG_HASH_ALGO → List Nat → List Nat → List Nat)
        (algo : RNG_HASH_ALGO) (ikm : List Nat),
        hkdf_extract hmacF algo none ikm =
          hmacF algo (List.replicate (algo_digest_len algo) 0) ikm) ∧
      hkdf_extract real_hmacF .sha256 (some tc1_salt) tc1_ikm = tc1_prk ∧
      hkdf_expand real_hmacF .sha256 tc1_prk (some tc1_info) 42 = tc1_okm := by
  refine ⟨fun _ _ _ => rfl, by decide, by decide⟩

/-- The preset never touches the output mode. -/
theorem apply_security_preset_output_mode (cfg : RNG_CONFIG) :
    (apply_security_preset cfg).output_mode = cfg.output_mode := by
  cases h : cfg.sec_mode <;> simp [apply_security_preset, h]

/-- Config resolution never touches the output mode. -/
theorem resolve_config_output_mode (cfg : RNG_CONFIG) :
    (resolve_config cfg).output_mode = cfg.output_mode := by
  unfold resolve_config
  by_cases h : all_sources_off cfg = true <;>
    simp [h, apply_security_preset_output_mode, enable_all_sources]

/-- Every digest width is positive. -/
theorem algo_digest_len_pos (a : RNG_HASH_ALGO) : 0 < algo_digest_len a := by
  cases a <;> simp [algo_digest_len]

/-- Under a width-respecting provider the root digest has the nominal
width, whatever the mixing mode and round count. -/
theorem root_digest_length (hashF : RNG_HASH_ALGO → List Nat → List Nat)
    (hl : ∀ a m, (hashF a m).length = algo_digest_len a)
    (algo : RNG_HASH_ALGO) (mixing : RNG_MIX_MODE) (env : Nat → EntropySample)
    (cfg : RNG_CONFIG) (rounds : Nat) :
    (root_digest hashF algo mixing env cfg rounds).length = algo_digest_len algo := by
  cases mixing
  · cases h : rounds - 1 <;> simp [root_digest, round_chain_digest, h, hl]
  · simp [root_digest, hl]

/-- Under a width-respecting provider, entropy collection never yields an
empty byte string for a positive requested size. -/
theorem collect_entropy_configurable_length_ne_zero
    (hashF : RNG_HASH_ALGO → List Nat → List Nat)
    (hl : ∀ a m, (hashF a m).length = algo_digest_len a)
    (env : Nat → EntropySample) (size rounds : Nat) (algo : RNG_HASH_ALGO)
    (mixing : RNG_MIX_MODE) (cfg : RNG_CONFIG) (hs : size ≠ 0) :
    (collect_entropy_configurable hashF env size rounds algo mixing cfg).length ≠ 0 := by
  unfold collect_entropy_configurable
  have hd := root_digest_length hashF hl algo mixing env cfg rounds
  have hpos := algo_digest_len_pos algo
  simp only [List.length_take, List.length_append, hd]
  omega

/-- The XOR seed fold preserves the IKM length. -/
theorem xor_fold_length (l s : List Nat) : (xor_fold l s).length = l.length := by
  simp [xor_fold]
  omega

/-- The whole seed-injection step preserves the IKM length. -/
theorem fold_seed_for_counter_xof_length (cfg : RNG_CONFIG) (l : List Nat) :
    (fold_seed_for_counter_xof cfg l).length = l.length := by
  unfold fold_seed_for_counter_xof
  split_ifs
  · cases h : cfg.seed <;> simp [h]
    split_ifs <;> simp [xor_fold_length]
  · rfl

/-- expand_output succeeds exactly when the IKM is non-empty. -/
theorem expand_output_ne_none (hashF : RNG_HASH_ALGO → List Nat → List Nat)
    (hmacF : RNG_HASH_ALGO → List Nat → List Nat → List Nat)
    (cfg : RNG_CONFIG) (ikm : List Nat) (out_len : Nat)
    (h : ikm.length ≠ 0) :
    expand_output hashF hmacF cfg ikm out_len ≠ none := by
  unfold expand_output
  rw [if_neg h]
  cases he : cfg.expansion <;> simp [he]

/-- Claim C7: maxrng_dev validates the caller's buffer against the exact
format requirement before any entropy collection — with a too-small buffer
it returns 0 and the buffer is exactly the caller's original bytes,
independent of provider and environment; and in the concrete scenario
raw_len = 16 with hex output, a 32-byte buffer succeeds with return value
32 (for every width-respecting provider) while a 31-byte buffer fails with
0 and an untouched buffer. -/
theorem C7_buffer_validation :
    (∀ (hashF : RNG_HASH_ALGO → List Nat → List Nat)
        (hmacF : RNG_HASH_ALGO → List Nat → List Nat → List Nat)
        (env : Nat → EntropySample) (out_buf : List Nat) (raw_len : Nat)
        (cfg : RNG_CONFIG),
        out_buf.length < needed_len cfg.output_mode raw_len →
        maxrng_dev hashF hmacF env out_buf raw_len cfg = (0, out_buf)) ∧
    (∀ (hashF : RNG_HASH_ALGO → List Nat → List Nat)
        (hmacF : RNG_HASH_ALGO → List Nat → List Nat → List Nat)
        (env : Nat → EntropySample) (out_buf : List Nat) (cfg : RNG_CONFIG),
        (∀ a m, (hashF a m).length = algo_digest_len a) →
        out_buf.length = 32 →
        (maxrng_dev hashF hmacF env out_buf 16
            { cfg with output_mode := .hex }).1 = 32) := by
  constructor
  · intro hashF hmacF env out_buf raw_len cfg hlt
    by_cases h0 : out_buf.length = 0 ∨ raw_len = 0
    · simp only [maxrng_dev]
      rw [if_pos h0]
    · simp only [maxrng_dev]
      rw [if_neg h0, if_pos (by rw [resolve_config_output_mode]; exact hlt)]
  · intro hashF hmacF env out_buf cfg hl hbuf
    have homode : (resolve_config { cfg with output_mode := .hex }).output_mode
        = RNG_OUTPUT_MODE.hex := by
      rw [resolve_config_output_mode]
    simp only [maxrng_dev]
    rw [if_neg (by simp [hbuf])]
    rw [homode]
    rw [if_neg (by rw [hbuf]; decide)]
    split
    · next heq =>
        exfalso
        refine expand_output_ne_none _ _ _ _ _ ?_ heq
        rw [fold_seed_for_counter_xof_length]
        refine collect_entropy_configurable_length_ne_zero _ hl _ _ _ _ _ _ ?_
        have := algo_digest_len_pos
          (resolve_config { cfg with output_mode := RNG_OUTPUT_MODE.hex }).hash_algo
        split_ifs <;> omega
    · next raw heq =>
        simp [needed_len]

/-- Claim C7, witness: the two concrete scenarios of the claim, on the toy
provider and fixed environment. -/
theorem C7_buffer_validation_witness :
    maxrng_dev toy_hashF toy_hmacF env0 (List.replicate 31 5) 16
        { cfg_base with output_mode := .hex } = (0, List.replicate 31 5) ∧
      (maxrng_dev toy_hashF toy_hmacF env0 (List.replicate 32 0) 16
        { cfg_base with output_mode := .hex }).1 = 32 :=
  ⟨C7_buffer_validation.1 toy_hashF toy_hmacF env0 _ 16 _ (by decide),
   C7_buffer_validation.2 toy_hashF toy_hmacF env0 _ cfg_base
     (fun a m => by simp [toy_hashF]) (by simp)⟩

end PyCTools
